import Mathlib

/-!
Shallow embedding of the adaptive multiple-choice assessment engine in
`src/streamlit_app.py` (classes `AdaptiveTestingEngine` and
`AdaptiveTestSession`), together with proofs settling the frozen claims
about its specification.

Modelling conventions:
* Python dict records become Lean structures with the source field names.
* `random.choice(pool)` is modelled by an extra `pick : Nat` argument used
  as an index `pick % pool.length` into the pool; any concrete choice the
  Python RNG can make corresponds to some `pick`.
* `random.shuffle` is modelled by an extra function argument
  `shuf : List QOption → List QOption`; theorems that need it assume
  `shuf l` is a permutation of `l`, which is all `random.shuffle`
  guarantees.
* Python list indexing `l[i]` with a possibly negative `i : int` is
  modelled by `pyGet`, which maps `i < 0` to `i + len(l)` and returns
  `none` exactly when Python would raise `IndexError`.
* The source mutates `self`; here every method takes and returns the
  `SessionState`.  `get_next_question` also returns the engine's question
  store: the source shallow-copies the fetched record (`q.copy()`) and
  copies its option list (`q["options"].copy()`) before shuffling, so the
  store is returned unchanged.
-/

/-- One answer option of a question: display text and the answer-key flag
(field names from the source JSON records). -/
structure QOption where
  description : String
  isAnswerKey : Bool
  deriving Repr, DecidableEq

/-- One question record as consumed by `AdaptiveTestingEngine.__init__`. -/
structure Question where
  id : String
  skill : String
  seniority : String
  level : Nat
  question : String
  options : List QOption
  deriving Repr, DecidableEq

/-- Composite key used by `AdaptiveTestingEngine`:
`f"{skill}_{seniority}_{level}"`. -/
def qkey (skill seniority : String) (level : Nat) : String :=
  skill ++ "_" ++ seniority ++ "_" ++ toString level

/-- Pool of questions stored under one key.  `__init__` groups the flat
record list into a dict keyed by `qkey`, preserving insertion order inside
each group; looking a key up in that dict is the same as filtering the
original list by the key. -/
def getPool (engine : List Question) (skill seniority : String) (level : Nat) :
    List Question :=
  engine.filter (fun q => qkey q.skill q.seniority q.level == qkey skill seniority level)

/-- Translation of `AdaptiveTestingEngine.get_question`: `random.choice(pool)
if pool else None`, the random choice supplied as the index `pick`. -/
def get_question (engine : List Question) (skill seniority : String) (level : Nat)
    (pick : Nat) : Option Question :=
  let pool := getPool engine skill seniority level
  if pool.isEmpty then none else pool[pick % pool.length]?

/-- One entry of `answer_history`, as appended by `submit_answer`. -/
structure AnswerRecord where
  question_id : String
  selected_index : Int
  is_correct : Bool
  deriving Repr, DecidableEq

/-- The mutable state of `AdaptiveTestSession` (its `__init__` fields). -/
structure SessionState where
  skill : String
  starting_seniority : String
  current_seniority : String
  current_level : Nat
  answer_history : List AnswerRecord
  question_history : List Question
  is_finished : Bool
  final_result : Option String
  failed : Bool
  path_state : String
  deriving Repr, DecidableEq

/-- Translation of `AdaptiveTestSession.__init__(engine, skill,
start_seniority)`: level fixed at 3, path-state `"initial"`. -/
def initSession (skill start_seniority : String) : SessionState :=
  { skill := skill
    starting_seniority := start_seniority
    current_seniority := start_seniority
    current_level := 3
    answer_history := []
    question_history := []
    is_finished := false
    final_result := none
    failed := false
    path_state := "initial" }

/-- Translation of `AdaptiveTestSession._finish_test`. -/
def finishTest (s : SessionState) (label : String) (failed : Bool) : SessionState :=
  { s with is_finished := true, final_result := some label, failed := failed }

/-- The dict built by `AdaptiveTestSession._get_result`; the
`answer_history` entry is the last answer record, or `{}` (here `none`)
when none exists. -/
structure ResultDict where
  is_finished : Bool
  final_result : Option String
  failed : Bool
  answer_history : Option AnswerRecord
  deriving Repr, DecidableEq

/-- Translation of `AdaptiveTestSession._get_result`. -/
def get_result (s : SessionState) : ResultDict :=
  { is_finished := s.is_finished
    final_result := s.final_result
    failed := s.failed
    answer_history := s.answer_history.getLast? }

/-- One resolved branch of a tier's decision tree: `advance` carries the
three assignments (`current_seniority`, `current_level`, `path_state`) of
a non-terminal branch, `term` is a `_finish_test(label, failed)` call, and
`stay` is the fall-through, when no `if`/`elif` of the method matches. -/
inductive Transition where
  | advance (sen : String) (lvl : Nat) (ps : String)
  | term (label : String) (failed : Bool)
  | stay
  deriving Repr, DecidableEq

/-- Apply a resolved branch to the session state. -/
def applyTrans (s : SessionState) : Transition → SessionState
  | Transition.advance sen lvl ps =>
      { s with current_seniority := sen, current_level := lvl, path_state := ps }
  | Transition.term label f => finishTest s label f
  | Transition.stay => s

/-- Branch selection of `_update_state_after_answer_middle`: the method
runs after the new answer record has been appended, so `n` is the number
of answers including the current one, `ps` the current path-state and `c`
the correctness of the current answer.  Each nested conditional of the
source appears verbatim. -/
def middleStep (n : Nat) (ps : String) (c : Bool) : Transition :=
  if n = 1 then
    if c then Transition.advance "middle" 5 "M5" else Transition.advance "middle" 1 "M1"
  else if n = 2 then
    if ps = "M5" then
      if c then Transition.advance "senior" 3 "S3" else Transition.advance "middle" 4 "M4"
    else if ps = "M1" then
      if c then Transition.advance "middle" 2 "M2" else Transition.advance "junior" 3 "J3"
    else Transition.stay
  else if n = 3 then
    if ps = "M2" then
      if c then Transition.term "LEVELM2" false else Transition.term "LEVELM1" false
    else if ps = "M4" then
      if c then Transition.term "LEVELM4" false else Transition.term "LEVELM3" false
    else if ps = "S3" then
      if c then Transition.advance "senior" 5 "S5" else Transition.advance "senior" 1 "S1"
    else if ps = "J3" then
      if c then Transition.advance "junior" 5 "J5" else Transition.advance "junior" 1 "J1"
    else Transition.stay
  else if n = 4 then
    if ps = "S5" then
      if c then Transition.term "LEVELS5" false else Transition.advance "senior" 4 "S4"
    else if ps = "S1" then
      if c then Transition.advance "senior" 2 "S2" else Transition.term "LEVELM5" false
    else if ps = "J5" then
      if c then Transition.term "LEVELJ5" false else Transition.advance "junior" 4 "J4"
    else if ps = "J1" then
      if c then Transition.advance "junior" 2 "J2" else Transition.term "LEVELJ0" true
    else Transition.stay
  else if n = 5 then
    if ps = "S4" then
      if c then Transition.term "LEVELS4" false else Transition.term "LEVELS3" false
    else if ps = "S2" then
      if c then Transition.term "LEVELS2" false else Transition.term "LEVELS1" false
    else if ps = "J4" then
      if c then Transition.term "LEVELJ4" false else Transition.term "LEVELJ3" false
    else if ps = "J2" then
      if c then Transition.term "LEVELJ2" false else Transition.term "LEVELJ1" false
    else Transition.stay
  else Transition.stay

/-- Translation of `_update_state_after_answer_middle`. -/
def update_middle (s : SessionState) (c : Bool) : SessionState :=
  applyTrans s (middleStep s.answer_history.length s.path_state c)

/-- Branch selection of `_update_state_after_answer_senior`. -/
def seniorStep (n : Nat) (ps : String) (c : Bool) : Transition :=
  if n = 1 then
    if c then Transition.advance "senior" 5 "S5" else Transition.advance "senior" 1 "S1"
  else if n = 2 then
    if ps = "S5" then
      if c then Transition.term "LEVELS5" false else Transition.advance "senior" 4 "S4"
    else if ps = "S1" then
      if c then Transition.advance "senior" 2 "S2" else Transition.advance "middle" 3 "M3"
    else Transition.stay
  else if n = 3 then
    if ps = "S4" then
      if c then Transition.term "LEVELS4" false else Transition.term "LEVELS3" false
    else if ps = "S2" then
      if c then Transition.term "LEVELS2" false else Transition.term "LEVELS1" false
    else if ps = "M3" then
      if c then Transition.advance "middle" 5 "M5" else Transition.advance "middle" 1 "M1"
    else Transition.stay
  else if n = 4 then
    if ps = "M5" then
      if c then Transition.term "LEVELM5" false else Transition.advance "middle" 4 "M4"
    else if ps = "M1" then
      if c then Transition.advance "middle" 2 "M2" else Transition.term "LEVELM0" true
    else Transition.stay
  else if n = 5 then
    if ps = "M4" then
      if c then Transition.term "LEVELM4" false else Transition.term "LEVELM3" false
    else if ps = "M2" then
      if c then Transition.term "LEVELM2" false else Transition.term "LEVELM1" false
    else Transition.stay
  else Transition.stay

/-- Translation of `_update_state_after_answer_senior`. -/
def update_senior (s : SessionState) (c : Bool) : SessionState :=
  applyTrans s (seniorStep s.answer_history.length s.path_state c)

/-- Branch selection of `_update_state_after_answer_fresher`. -/
def fresherStep (n : Nat) (ps : String) (c : Bool) : Transition :=
  if n = 1 then
    if c then Transition.advance "fresher" 5 "F5" else Transition.advance "fresher" 1 "F1"
  else if n = 2 then
    if ps = "F5" then
      if c then Transition.advance "junior" 3 "J3" else Transition.advance "fresher" 4 "F4"
    else if ps = "F1" then
      if c then Transition.advance "fresher" 2 "F2" else Transition.term "LEVELF0" true
    else Transition.stay
  else if n = 3 then
    if ps = "F4" then
      if c then Transition.term "LEVELF4" false else Transition.term "LEVELF3" false
    else if ps = "F2" then
      if c then Transition.term "LEVELF2" false else Transition.term "LEVELF1" false
    else if ps = "J3" then
      if c then Transition.advance "junior" 5 "J5" else Transition.advance "junior" 1 "J1"
    else Transition.stay
  else if n = 4 then
    if ps = "J5" then
      if c then Transition.term "LEVELJ5" false else Transition.advance "junior" 4 "J4"
    else if ps = "J1" then
      if c then Transition.advance "junior" 2 "J2" else Transition.term "LEVELF5" false
    else Transition.stay
  else if n = 5 then
    if ps = "J4" then
      if c then Transition.term "LEVELJ4" false else Transition.term "LEVELJ3" false
    else if ps = "J2" then
      if c then Transition.term "LEVELJ2" false else Transition.term "LEVELJ1" false
    else Transition.stay
  else Transition.stay

/-- Translation of `_update_state_after_answer_fresher`. -/
def update_fresher (s : SessionState) (c : Bool) : SessionState :=
  applyTrans s (fresherStep s.answer_history.length s.path_state c)

/-- Branch selection of `_update_state_after_answer_junior`. -/
def juniorStep (n : Nat) (ps : String) (c : Bool) : Transition :=
  if n = 1 then
    if c then Transition.advance "junior" 5 "J5" else Transition.advance "junior" 1 "J1"
  else if n = 2 then
    if ps = "J5" then
      if c then Transition.advance "middle" 3 "M3" else Transition.advance "junior" 4 "J4"
    else if ps = "J1" then
      if c then Transition.advance "junior" 2 "J2" else Transition.advance "fresher" 3 "F3"
    else Transition.stay
  else if n = 3 then
    if ps = "J2" then
      if c then Transition.term "LEVELJ2" false else Transition.term "LEVELJ1" false
    else if ps = "J4" then
      if c then Transition.term "LEVELJ4" false else Transition.term "LEVELJ3" false
    else if ps = "M3" then
      if c then Transition.advance "middle" 5 "M5" else Transition.advance "middle" 1 "M1"
    else if ps = "F3" then
      if c then Transition.advance "fresher" 5 "F5" else Transition.advance "fresher" 1 "F1"
    else Transition.stay
  else if n = 4 then
    if ps = "M5" then
      if c then Transition.term "LEVELM5" false else Transition.advance "middle" 4 "M4"
    else if ps = "M1" then
      if c then Transition.advance "middle" 2 "M2" else Transition.term "LEVELJ5" false
    else if ps = "F5" then
      if c then Transition.term "LEVELF5" false else Transition.advance "fresher" 4 "F4"
    else if ps = "F1" then
      if c then Transition.advance "fresher" 2 "F2" else Transition.term "LEVELF0" true
    else Transition.stay
  else if n = 5 then
    if ps = "M4" then
      if c then Transition.term "LEVELM4" false else Transition.term "LEVELM3" false
    else if ps = "M2" then
      if c then Transition.term "LEVELM2" false else Transition.term "LEVELM1" false
    else if ps = "F4" then
      if c then Transition.term "LEVELF4" false else Transition.term "LEVELF3" false
    else if ps = "F2" then
      if c then Transition.term "LEVELF2" false else Transition.term "LEVELF1" false
    else Transition.stay
  else Transition.stay

/-- Translation of `_update_state_after_answer_junior`. -/
def update_junior (s : SessionState) (c : Bool) : SessionState :=
  applyTrans s (juniorStep s.answer_history.length s.path_state c)

/-- The `starting_seniority` dispatch at the end of `submit_answer`:
`some` of the updated state for the four recognized tiers, `none` for the
`return {"error": "Invalid seniority"}` fall-through. -/
def dispatch (s : SessionState) (c : Bool) : Option SessionState :=
  if s.starting_seniority = "fresher" then some (update_fresher s c)
  else if s.starting_seniority = "junior" then some (update_junior s c)
  else if s.starting_seniority = "middle" then some (update_middle s c)
  else if s.starting_seniority = "senior" then some (update_senior s c)
  else none

/-- Python list indexing `l[i]` for `i : int`: negative indices count from
the end; `none` exactly when Python raises `IndexError`. -/
def pyGet (l : List QOption) (i : Int) : Option QOption :=
  let j := if i < 0 then i + l.length else i
  if 0 ≤ j ∧ j < l.length then l[j.toNat]? else none

/-- Value returned to the caller by `submit_answer`: the structured error
dict `{"error": msg}`, a raised Python exception (`IndexError` from the
unchecked option lookup), or the `_get_result` dict. -/
inductive SubmitOutcome where
  | err (msg : String)
  | raised
  | ok (r : ResultDict)
  deriving Repr, DecidableEq

/-- Append the answer record that `submit_answer` builds for the last
presented question before dispatching on the starting tier. -/
def appendAnswer (s : SessionState) (q : Question) (selected_idx : Int) (c : Bool) :
    SessionState :=
  { s with answer_history := s.answer_history ++
      [{ question_id := q.id, selected_index := selected_idx, is_correct := c }] }

/-- Translation of `AdaptiveTestSession.submit_answer(selected_idx)`.  The
`getLast? = none` branch is unreachable because the guard already rules
out an empty `question_history`; it is mapped to the same rejection. -/
def submit_answer (s : SessionState) (selected_idx : Int) :
    SubmitOutcome × SessionState :=
  if s.is_finished || s.question_history.isEmpty then
    (SubmitOutcome.err "No active question", s)
  else
    match s.question_history.getLast? with
    | none => (SubmitOutcome.err "No active question", s)
    | some question =>
      match pyGet question.options selected_idx with
      | none => (SubmitOutcome.raised, s)
      | some opt =>
        let s1 := appendAnswer s question selected_idx opt.isAnswerKey
        match dispatch s1 opt.isAnswerKey with
        | some s2 => (SubmitOutcome.ok (get_result s2), s2)
        | none => (SubmitOutcome.err "Invalid seniority", s1)

/-- Translation of `AdaptiveTestSession.get_next_question`.  Returns the
question handed to the caller, the engine's question store after the call
(unchanged: the source copies the record and its option list before
shuffling), and the new session state. -/
def get_next_question (engine : List Question) (pick : Nat)
    (shuf : List QOption → List QOption) (s : SessionState) :
    Option Question × List Question × SessionState :=
  if s.is_finished then (none, engine, s)
  else
    match get_question engine s.skill s.current_seniority s.current_level pick with
    | none => (none, engine, finishTest s "NO_QUESTION_AVAILABLE" true)
    | some q =>
      let shuffled_q := { q with options := shuf q.options }
      (some shuffled_q, engine,
        { s with question_history := s.question_history ++ [shuffled_q] })

/-- The four recognized starting tiers. -/
def recognizedTiers : List String := ["fresher", "junior", "middle", "senior"]

/-- Synthetic question for a given key, used to drive whole sessions: its
first option is the answer key, its second is not. -/
def mkQuestion (skill sen : String) (lvl : Nat) : Question :=
  { id := qkey skill sen lvl
    skill := skill
    seniority := sen
    level := lvl
    question := "q"
    options := [{ description := "right", isAnswerKey := true },
                { description := "wrong", isAnswerKey := false }] }

/-- Repository holding one question for every (tier, level) pair of one
skill, so that a session can always be driven to completion. -/
def fullRepo (skill : String) : List Question :=
  recognizedTiers.flatMap (fun sen => (List.range 5).map (fun i => mkQuestion skill sen (i + 1)))

/-- One user round as the Streamlit page drives it: present the next
question, then submit the option whose correctness flag is `c` (option 0
is the answer key of `mkQuestion`, option 1 is not; the shuffle is the
identity permutation here).  A finished session is left untouched. -/
def stepA (engine : List Question) (s : SessionState) (c : Bool) : SessionState :=
  let r := get_next_question engine 0 (fun l => l) s
  match r.1 with
  | some _ => (submit_answer r.2.2 (if c then 0 else 1)).2
  | none => r.2.2

/-- Drive a fresh session of the given starting tier through the
correctness sequence `cs` over `fullRepo "html"`. -/
def run (tier : String) (cs : List Bool) : SessionState :=
  cs.foldl (stepA (fullRepo "html")) (initSession "html" tier)

/-- The recorded answer-correctness sequence of a session: the
`is_correct` flags of its answer records, in order. -/
def flags (s : SessionState) : List Bool :=
  s.answer_history.map (fun a => a.is_correct)

/-- Placeholder answer record used when replaying a correctness flag
through the transition tables; only its `is_correct` field matters to the
tables (they read the history's length, never its entries). -/
def dummyRecord (c : Bool) : AnswerRecord :=
  { question_id := "", selected_index := 0, is_correct := c }

/-- Replay one correctness flag through the transition table of the
session's starting tier: append a record (as `submit_answer` does) and
apply the tier dispatch; a finished state is left untouched, and an
unrecognized tier leaves the table state unchanged, exactly as the
dispatch fall-through does. -/
def replayStep (s : SessionState) (c : Bool) : SessionState :=
  if s.is_finished then s
  else
    let s1 := { s with answer_history := s.answer_history ++ [dummyRecord c] }
    match dispatch s1 c with
    | some s2 => s2
    | none => s1

/-- Replay a whole correctness sequence through the transition table of
starting tier `tier`, from the initial state (level 3, path-state
`"initial"`). -/
def replay (tier : String) (cs : List Bool) : SessionState :=
  cs.foldl replayStep (initSession "replay" tier)

/-- One call of the public session API, with the random choices of the
call supplied explicitly. -/
inductive Op where
  | next (pick : Nat) (shuf : List QOption → List QOption)
  | submit (idx : Int)

/-- Run an arbitrary sequence of public API calls, threading the engine's
question store through every `get_next_question` call. -/
def runOps (engine : List Question) (ops : List Op) (s : SessionState) :
    List Question × SessionState :=
  match ops with
  | [] => (engine, s)
  | Op.next pick shuf :: rest =>
    let r := get_next_question engine pick shuf s
    runOps r.2.1 rest r.2.2
  | Op.submit idx :: rest => runOps engine rest (submit_answer s idx).2

/-- The components of a session state that the transition tables read and
write: starting tier, current tier/level/path-state, the finish flags,
and the number of recorded answers. -/
def core (s : SessionState) :
    String × String × Nat × String × Bool × Option String × Bool × Nat :=
  (s.starting_seniority, s.current_seniority, s.current_level, s.path_state,
   s.is_finished, s.final_result, s.failed, s.answer_history.length)

/-- Invariant of every reachable session state: either its table-relevant
components agree with the replay of its recorded correctness sequence, or
it was finished by an empty question pool. -/
def ReachInv (s : SessionState) : Prop :=
  core s = core (replay s.starting_seniority (flags s)) ∨
  (s.is_finished = true ∧ s.final_result = some "NO_QUESTION_AVAILABLE")

/-- C1: for every recognized starting tier and every correctness sequence
of length 5, the driven session is finished with a final outcome label
after at most 5 recorded answers; no length-5 correctness sequence leaves
the session unfinished. -/
theorem c1_depth_five_terminates (tier : String)
    (htier : tier ∈ recognizedTiers) (a b c d e : Bool) :
    (run tier [a, b, c, d, e]).is_finished = true ∧
    ((run tier [a, b, c, d, e]).final_result).isSome = true ∧
    (run tier [a, b, c, d, e]).answer_history.length ≤ 5 := by
  revert a b c d e
  fin_cases htier <;> decide

/-- Witness for C1 at starting tier middle and the all-correct sequence. -/
theorem c1_witness :
    "middle" ∈ recognizedTiers ∧
    ((run "middle" [true, true, true, true, true]).is_finished = true ∧
     ((run "middle" [true, true, true, true, true]).final_result).isSome = true ∧
     (run "middle" [true, true, true, true, true]).answer_history.length ≤ 5) :=
  ⟨by decide, c1_depth_five_terminates "middle" (by decide) true true true true true⟩

/-- C2: a middle-tier session answering correct, correct, correct, correct
traces path-states M5, S3, S5 and ends finished at outcome LEVELS5 with
failed = false. -/
theorem c2_middle_four_correct :
    (run "middle" [true]).path_state = "M5" ∧
    (run "middle" [true, true]).path_state = "S3" ∧
    (run "middle" [true, true, true]).path_state = "S5" ∧
    (run "middle" [true, true, true]).is_finished = false ∧
    (run "middle" [true, true, true, true]).is_finished = true ∧
    (run "middle" [true, true, true, true]).final_result = some "LEVELS5" ∧
    (run "middle" [true, true, true, true]).failed = false ∧
    (run "middle" [true, true, true, true]).answer_history.length = 4 := by
  decide

/-- Counterexample to C3 as stated: after three all-incorrect answers a
middle-tier session is still unfinished, sitting at path-state J1 with no
outcome label. -/
theorem c3_counterexample :
    (run "middle" [false, false, false]).is_finished = false ∧
    (run "middle" [false, false, false]).final_result = none ∧
    (run "middle" [false, false, false]).path_state = "J1" := by
  decide

/-- C3 amended: a middle-tier session needs four all-incorrect answers to
finish at outcome LEVELJ0 with failed = true, tracing path-states M1, J3,
J1 on the way. -/
theorem c3_amended_four_incorrect :
    (run "middle" [false]).path_state = "M1" ∧
    (run "middle" [false, false]).path_state = "J3" ∧
    (run "middle" [false, false, false]).path_state = "J1" ∧
    (run "middle" [false, false, false, false]).is_finished = true ∧
    (run "middle" [false, false, false, false]).final_result = some "LEVELJ0" ∧
    (run "middle" [false, false, false, false]).failed = true := by
  decide

/-- C4: on an unfinished session whose question pool for the current
(skill, tier, level) is empty, `get_next_question` returns no question and
finishes the session with outcome NO_QUESTION_AVAILABLE and failed = true,
leaving both histories untouched; in particular a fresh session whose
(skill, tier, 3) pool is empty terminates with zero answers recorded. -/
theorem c4_empty_pool (engine : List Question) (pick : Nat)
    (shuf : List QOption → List QOption) (s : SessionState) (skill tier : String)
    (h1 : s.is_finished = false)
    (h2 : getPool engine s.skill s.current_seniority s.current_level = [])
    (h3 : getPool engine skill tier 3 = []) :
    get_next_question engine pick shuf s =
      (none, engine,
        { s with is_finished := true,
                 final_result := some "NO_QUESTION_AVAILABLE", failed := true }) ∧
    get_next_question engine pick shuf (initSession skill tier) =
      (none, engine,
        { (initSession skill tier) with
            is_finished := true,
            final_result := some "NO_QUESTION_AVAILABLE", failed := true }) ∧
    (initSession skill tier).answer_history = [] := by
  refine ⟨?_, ?_, rfl⟩
  · simp [get_next_question, get_question, h1, h2, finishTest]
  · simp [get_next_question, get_question, initSession, h3, finishTest]

/-- Witness for C4 on the empty repository. -/
theorem c4_witness :
    getPool [] "html" "middle" 3 = [] ∧
    get_next_question [] 0 (fun l => l) (initSession "html" "middle") =
      (none, [],
        { (initSession "html" "middle") with
            is_finished := true,
            final_result := some "NO_QUESTION_AVAILABLE", failed := true }) ∧
    (initSession "html" "middle").answer_history = [] :=
  ⟨rfl,
   (c4_empty_pool [] 0 (fun l => l) (initSession "html" "middle") "html" "middle"
      rfl rfl rfl).2.1,
   rfl⟩

/-- C5: a finished session is frozen: `submit_answer` returns the
rejection dict and the identical state, and `get_next_question` returns no
question and the identical state. -/
theorem c5_finished_frozen (engine : List Question) (pick : Nat)
    (shuf : List QOption → List QOption) (s : SessionState) (idx : Int)
    (h : s.is_finished = true) :
    submit_answer s idx = (SubmitOutcome.err "No active question", s) ∧
    get_next_question engine pick shuf s = (none, engine, s) := by
  constructor
  · simp [submit_answer, h]
  · simp [get_next_question, h]

/-- Behaviour of `submit_answer` when the session is active: with the
guard false and the last presented question known, the call reduces to the
unchecked option lookup followed by the tier dispatch. -/
theorem submit_answer_active (s : SessionState) (idx : Int) (q : Question)
    (hf : s.is_finished = false) (hlast : s.question_history.getLast? = some q) :
    submit_answer s idx =
      match pyGet q.options idx with
      | none => (SubmitOutcome.raised, s)
      | some opt =>
        match dispatch (appendAnswer s q idx opt.isAnswerKey) opt.isAnswerKey with
        | some s2 => (SubmitOutcome.ok (get_result s2), s2)
        | none => (SubmitOutcome.err "Invalid seniority",
                   appendAnswer s q idx opt.isAnswerKey) := by
  have hne : s.question_history ≠ [] := by
    intro h
    rw [h] at hlast
    simp at hlast
  have hempty : s.question_history.isEmpty = false := List.isEmpty_eq_false.mpr hne
  unfold submit_answer
  rw [hf, hempty, hlast]
  rfl

/-- The `submit_answer` call that raises `IndexError`: active session,
out-of-window index. -/
theorem submit_answer_raised (s : SessionState) (idx : Int) (q : Question)
    (hf : s.is_finished = false) (hlast : s.question_history.getLast? = some q)
    (hopt : pyGet q.options idx = none) :
    submit_answer s idx = (SubmitOutcome.raised, s) := by
  rw [submit_answer_active s idx q hf hlast]
  simp only [hopt]

/-- The `submit_answer` call that hits the unrecognized-tier fall-through:
the answer record is appended, then the error dict is returned. -/
theorem submit_answer_invalid (s : SessionState) (idx : Int) (q : Question) (opt : QOption)
    (hf : s.is_finished = false) (hlast : s.question_history.getLast? = some q)
    (hopt : pyGet q.options idx = some opt)
    (hd : dispatch (appendAnswer s q idx opt.isAnswerKey) opt.isAnswerKey = none) :
    submit_answer s idx =
      (SubmitOutcome.err "Invalid seniority", appendAnswer s q idx opt.isAnswerKey) := by
  rw [submit_answer_active s idx q hf hlast]
  simp only [hopt, hd]

/-- The `submit_answer` call that reaches a recognized tier's transition
table: the answer record is appended and the table applied. -/
theorem submit_answer_advance (s : SessionState) (idx : Int) (q : Question) (opt : QOption)
    (s2 : SessionState)
    (hf : s.is_finished = false) (hlast : s.question_history.getLast? = some q)
    (hopt : pyGet q.options idx = some opt)
    (hd : dispatch (appendAnswer s q idx opt.isAnswerKey) opt.isAnswerKey = some s2) :
    submit_answer s idx = (SubmitOutcome.ok (get_result s2), s2) := by
  rw [submit_answer_active s idx q hf hlast]
  simp only [hopt, hd]

/-- Characterization of the Python option lookup: it fails (raises
`IndexError`) exactly when the index is below `-len` or at least `len`. -/
theorem pyGet_eq_none_iff (l : List QOption) (i : Int) :
    pyGet l i = none ↔ (i < -(l.length : Int) ∨ (l.length : Int) ≤ i) := by
  simp only [pyGet]
  by_cases hneg : i < 0
  · simp only [if_pos hneg]
    by_cases hin : 0 ≤ i + (l.length : Int) ∧ i + (l.length : Int) < (l.length : Int)
    · rw [if_pos hin]
      have hlt : (i + (l.length : Int)).toNat < l.length := by omega
      simp only [List.getElem?_eq_getElem hlt]
      simp
      omega
    · rw [if_neg hin]
      simp
      omega
  · simp only [if_neg hneg]
    by_cases hin : 0 ≤ i ∧ i < (l.length : Int)
    · rw [if_pos hin]
      have hlt : i.toNat < l.length := by omega
      simp only [List.getElem?_eq_getElem hlt]
      simp
      omega
    · rw [if_neg hin]
      simp
      omega

/-- Witness for C5 on a concrete finished session. -/
theorem c5_witness :
    (finishTest (initSession "html" "middle") "LEVELM3" false).is_finished = true ∧
    submit_answer (finishTest (initSession "html" "middle") "LEVELM3" false) 0 =
      (SubmitOutcome.err "No active question",
       finishTest (initSession "html" "middle") "LEVELM3" false) ∧
    get_next_question [] 0 (fun l => l)
        (finishTest (initSession "html" "middle") "LEVELM3" false) =
      (none, [], finishTest (initSession "html" "middle") "LEVELM3" false) :=
  ⟨rfl, c5_finished_frozen [] 0 (fun l => l) _ 0 rfl⟩

/-- Repository holding exactly one question, for skill html at tier middle
level 3. -/
def repoM3 : List Question := [mkQuestion "html" "middle" 3]

/-- Middle-tier session right after its first question was presented. -/
def sessionQ1 : SessionState :=
  (get_next_question repoM3 0 (fun l => l) (initSession "html" "middle")).2.2

/-- Same session right after its first (correct) answer was submitted:
advanced to path-state M5 and still unfinished. -/
def sessionA1 : SessionState := (submit_answer sessionQ1 0).2

/-- C6 amended: `submit_answer` is rejected with the structured "No active
question" error exactly when the session is finished or no question has
ever been presented, and a rejected call leaves the state unchanged.  A
second consecutive `submit_answer` with no intervening question is
accepted (see the counterexample). -/
theorem c6_amended_reject_iff (s : SessionState) (idx : Int) :
    ((submit_answer s idx).1 = SubmitOutcome.err "No active question" ↔
      (s.is_finished = true ∨ s.question_history = [])) ∧
    ((submit_answer s idx).2 = s ∨
      (submit_answer s idx).1 ≠ SubmitOutcome.err "No active question") := by
  by_cases hf : s.is_finished = true
  · have h : submit_answer s idx = (SubmitOutcome.err "No active question", s) := by
      simp [submit_answer, hf]
    rw [h]
    exact ⟨by simp [hf], Or.inl rfl⟩
  · have hf2 : s.is_finished = false := by simpa using hf
    by_cases hq : s.question_history = []
    · have h : submit_answer s idx = (SubmitOutcome.err "No active question", s) := by
        simp [submit_answer, hq]
      rw [h]
      exact ⟨by simp [hq], Or.inl rfl⟩
    · obtain ⟨q, hlast⟩ : ∃ q, s.question_history.getLast? = some q := by
        cases hh : s.question_history.getLast? with
        | none => exact absurd (List.getLast?_eq_none_iff.mp hh) hq
        | some q => exact ⟨q, rfl⟩
      cases hopt : pyGet q.options idx with
      | none =>
        rw [submit_answer_raised s idx q hf2 hlast hopt]
        exact ⟨by simp [hf2, hq], Or.inr (by simp)⟩
      | some opt =>
        cases hd : dispatch (appendAnswer s q idx opt.isAnswerKey) opt.isAnswerKey with
        | none =>
          rw [submit_answer_invalid s idx q opt hf2 hlast hopt hd]
          refine ⟨by simp [hf2, hq], Or.inr ?_⟩
          intro hcon
          simp at hcon
        | some s2 =>
          rw [submit_answer_advance s idx q opt s2 hf2 hlast hopt hd]
          exact ⟨by simp [hf2, hq], Or.inr (by simp)⟩

/-- Witness for C6: a finished session is rejected without mutation. -/
theorem c6_witness :
    submit_answer (finishTest (initSession "css" "middle") "LEVELM2" false) 0 =
      (SubmitOutcome.err "No active question",
       finishTest (initSession "css" "middle") "LEVELM2" false) := by
  have h := c6_amended_reject_iff (finishTest (initSession "css" "middle") "LEVELM2" false) 0
  rcases h.2 with h2 | h2
  · have h1 : (submit_answer (finishTest (initSession "css" "middle") "LEVELM2" false) 0).1 =
        SubmitOutcome.err "No active question" := h.1.mpr (Or.inl rfl)
    calc submit_answer (finishTest (initSession "css" "middle") "LEVELM2" false) 0
        = ((submit_answer (finishTest (initSession "css" "middle") "LEVELM2" false) 0).1,
           (submit_answer (finishTest (initSession "css" "middle") "LEVELM2" false) 0).2) := rfl
      _ = _ := by rw [h1, h2]
  · exact absurd (h.1.mpr (Or.inl rfl)) h2

/-- Counterexample to C6 as stated: after one presented question and one
submitted answer, a second consecutive `submit_answer` with no intervening
`get_next_question` is not rejected — it is answered with a result dict
and appends a second answer record against the single presented question,
so answer records outnumber presented questions. -/
theorem c6_counterexample :
    sessionA1.is_finished = false ∧
    sessionA1.question_history.length = 1 ∧
    sessionA1.answer_history.length = 1 ∧
    (submit_answer sessionA1 0).1 ≠ SubmitOutcome.err "No active question" ∧
    (submit_answer sessionA1 0).1 ≠ SubmitOutcome.raised ∧
    ((submit_answer sessionA1 0).2).answer_history.length = 2 ∧
    ((submit_answer sessionA1 0).2).question_history.length = 1 := by
  decide

/-- Repository whose only question sits under the unrecognized tier
"lead". -/
def repoLead : List Question := [mkQuestion "html" "lead" 3]

/-- Session with the unrecognized starting tier "lead" right after
`get_next_question` presented a question from `repoLead`. -/
def sessionLeadQ1 : SessionState :=
  (get_next_question repoLead 0 (fun l => l) (initSession "html" "lead")).2.2

/-- Counterexample to C7 as stated: with starting tier "lead" (outside the
four recognized values) and a repository holding a question under that
tier, a question is presented, and `submit_answer` appends an answer
record and returns the "Invalid seniority" error dict while the session
stays unfinished and unfailed — the error is neither terminal nor
surfaced without consuming a question. -/
theorem c7_counterexample :
    ("lead" ∉ recognizedTiers) ∧
    ((get_next_question repoLead 0 (fun l => l) (initSession "html" "lead")).1).isSome = true ∧
    sessionLeadQ1.question_history.length = 1 ∧
    (submit_answer sessionLeadQ1 0).1 = SubmitOutcome.err "Invalid seniority" ∧
    ((submit_answer sessionLeadQ1 0).2).answer_history.length = 1 ∧
    ((submit_answer sessionLeadQ1 0).2).is_finished = false ∧
    ((submit_answer sessionLeadQ1 0).2).failed = false := by
  decide

/-- C7 amended: a session with an unrecognized starting tier is not
validated at creation.  If the repository has no questions under that tier
the first `get_next_question` terminates the fresh session failed with
NO_QUESTION_AVAILABLE, no question presented and no answer recorded; but
when a question under that tier was presented, `submit_answer` appends an
answer record and returns the "Invalid seniority" error dict without
finishing or failing the session. -/
theorem c7_amended (engine : List Question) (pick : Nat)
    (shuf : List QOption → List QOption) (skill tier : String)
    (s : SessionState) (idx : Int) (q : Question) (opt : QOption)
    (htier : tier ∉ recognizedTiers)
    (hpool : getPool engine skill tier 3 = [])
    (hs : s.starting_seniority = tier)
    (hfin : s.is_finished = false)
    (hlast : s.question_history.getLast? = some q)
    (hopt : pyGet q.options idx = some opt) :
    get_next_question engine pick shuf (initSession skill tier) =
      (none, engine,
        { (initSession skill tier) with
            is_finished := true,
            final_result := some "NO_QUESTION_AVAILABLE", failed := true }) ∧
    (submit_answer s idx).1 = SubmitOutcome.err "Invalid seniority" ∧
    ((submit_answer s idx).2).is_finished = false ∧
    ((submit_answer s idx).2).failed = s.failed ∧
    ((submit_answer s idx).2).final_result = s.final_result ∧
    ((submit_answer s idx).2).answer_history.length = s.answer_history.length + 1 ∧
    ((submit_answer s idx).2).question_history = s.question_history := by
  have hne : tier ≠ "fresher" ∧ tier ≠ "junior" ∧ tier ≠ "middle" ∧ tier ≠ "senior" := by
    simpa [recognizedTiers] using htier
  have hd : dispatch (appendAnswer s q idx opt.isAnswerKey) opt.isAnswerKey = none := by
    simp [dispatch, appendAnswer, hs, hne.1, hne.2.1, hne.2.2.1, hne.2.2.2]
  refine ⟨?_, ?_⟩
  · simp [get_next_question, get_question, initSession, hpool, finishTest]
  · rw [submit_answer_invalid s idx q opt hfin hlast hopt hd]
    simp [appendAnswer, hfin]

/-- Witness for C7 at the concrete "lead" session. -/
theorem c7_witness :
    get_next_question [] 0 (fun l => l) (initSession "html" "lead") =
      (none, [],
        { (initSession "html" "lead") with
            is_finished := true,
            final_result := some "NO_QUESTION_AVAILABLE", failed := true }) ∧
    (submit_answer sessionLeadQ1 0).1 = SubmitOutcome.err "Invalid seniority" ∧
    ((submit_answer sessionLeadQ1 0).2).is_finished = false ∧
    ((submit_answer sessionLeadQ1 0).2).failed = sessionLeadQ1.failed ∧
    ((submit_answer sessionLeadQ1 0).2).final_result = sessionLeadQ1.final_result ∧
    ((submit_answer sessionLeadQ1 0).2).answer_history.length =
      sessionLeadQ1.answer_history.length + 1 ∧
    ((submit_answer sessionLeadQ1 0).2).question_history =
      sessionLeadQ1.question_history :=
  c7_amended [] 0 (fun l => l) "html" "lead" sessionLeadQ1 0
    (mkQuestion "html" "lead" 3)
    { description := "right", isAnswerKey := true }
    (by decide) rfl rfl rfl (by decide) (by decide)

/-- Counterexample to C10 as stated: the selected index -1 lies outside
the claimed range 0 ≤ idx < 2 of the last presented question's two
options, yet the lookup does not raise — Python's negative indexing reads
the last option — and an answer record is appended. -/
theorem c10_counterexample :
    ((-1 : Int) < 0) ∧
    sessionQ1.question_history.getLast? = some (mkQuestion "html" "middle" 3) ∧
    (mkQuestion "html" "middle" 3).options.length = 2 ∧
    (submit_answer sessionQ1 (-1)).1 ≠ SubmitOutcome.raised ∧
    ((submit_answer sessionQ1 (-1)).2).answer_history.length = 1 := by
  decide

/-- C10 amended: for an unfinished session with a presented question, the
unchecked option lookup of `submit_answer` raises exactly when the index
is below -len or at least len of the last presented question's options
(Python negative indexing); any in-window index, negative ones included,
yields a returned dict, and a raising call mutates nothing. -/
theorem c10_amended (s : SessionState) (idx : Int) (q : Question)
    (hfin : s.is_finished = false)
    (hlast : s.question_history.getLast? = some q) :
    ((submit_answer s idx).1 = SubmitOutcome.raised ↔
      (idx < -(q.options.length : Int) ∨ (q.options.length : Int) ≤ idx)) ∧
    ((submit_answer s idx).1 ≠ SubmitOutcome.raised ∨ (submit_answer s idx).2 = s) := by
  cases hopt : pyGet q.options idx with
  | none =>
    rw [submit_answer_raised s idx q hfin hlast hopt]
    exact ⟨by simp [(pyGet_eq_none_iff q.options idx).mp hopt], Or.inr rfl⟩
  | some opt =>
    have hno : ¬ (idx < -(q.options.length : Int) ∨ (q.options.length : Int) ≤ idx) := by
      intro hcon
      rw [(pyGet_eq_none_iff q.options idx).mpr hcon] at hopt
      exact Option.noConfusion hopt
    cases hd : dispatch (appendAnswer s q idx opt.isAnswerKey) opt.isAnswerKey with
    | none =>
      rw [submit_answer_invalid s idx q opt hfin hlast hopt hd]
      exact ⟨by simp [hno], Or.inl (by simp)⟩
    | some s2 =>
      rw [submit_answer_advance s idx q opt s2 hfin hlast hopt hd]
      exact ⟨by simp [hno], Or.inl (by simp)⟩

/-- Witness for C10 at an out-of-window index of the concrete session. -/
theorem c10_witness :
    ((submit_answer sessionQ1 5).1 = SubmitOutcome.raised ↔
      ((5 : Int) < -(((mkQuestion "html" "middle" 3).options.length : Int)) ∨
       (((mkQuestion "html" "middle" 3).options.length : Int)) ≤ 5)) ∧
    ((submit_answer sessionQ1 5).1 ≠ SubmitOutcome.raised ∨
      (submit_answer sessionQ1 5).2 = sessionQ1) :=
  c10_amended sessionQ1 5 (mkQuestion "html" "middle" 3) rfl (by decide)

/-- The engine's question store returned by one `get_next_question` call
is the store it was given. -/
theorem get_next_question_engine (engine : List Question) (pick : Nat)
    (shuf : List QOption → List QOption) (s : SessionState) :
    (get_next_question engine pick shuf s).2.1 = engine := by
  unfold get_next_question
  split
  · rfl
  · cases get_question engine s.skill s.current_seniority s.current_level pick <;> rfl

/-- The engine's question store survives any sequence of API calls. -/
theorem runOps_engine (engine : List Question) (ops : List Op) (s : SessionState) :
    (runOps engine ops s).1 = engine := by
  induction ops generalizing engine s with
  | nil => rfl
  | cons op rest ih =>
    cases op with
    | next pick shuf =>
      show (runOps (get_next_question engine pick shuf s).2.1 rest
        (get_next_question engine pick shuf s).2.2).1 = engine
      rw [ih, get_next_question_engine]
    | submit idx => exact ih engine (submit_answer s idx).2

/-- A question returned by `get_question` is one of the indexed records. -/
theorem get_question_mem (engine : List Question) (skill seniority : String)
    (level : Nat) (pick : Nat) (q : Question)
    (h : get_question engine skill seniority level pick = some q) : q ∈ engine := by
  simp only [get_question] at h
  split at h
  · exact absurd h (by simp)
  · have hmem : q ∈ getPool engine skill seniority level := List.getElem?_mem h
    rw [getPool] at hmem
    exact (List.mem_filter.mp hmem).1

/-- Behaviour of `get_next_question` on an active session whose current
pool yields a question: the caller receives a copy with shuffled options
and only `question_history` grows. -/
theorem get_next_question_found (engine : List Question) (pick : Nat)
    (shuf : List QOption → List QOption) (s : SessionState) (q : Question)
    (hfin : s.is_finished = false)
    (hq : get_question engine s.skill s.current_seniority s.current_level pick = some q) :
    get_next_question engine pick shuf s =
      (some { q with options := shuf q.options }, engine,
       { s with question_history :=
           s.question_history ++ [{ q with options := shuf q.options }] }) := by
  unfold get_next_question
  rw [hfin, hq]
  rfl

/-- C9: the public API never mutates the question repository.  After any
sequence of calls the store equals what indexing produced, and a presented
question is a fresh copy of the fetched record: same fields, options
shuffled by a permutation, the original record still in the store with its
option order intact; only the session's `question_history` grows. -/
theorem c9_repository_read_only (engine : List Question) (pick : Nat)
    (shuf : List QOption → List QOption) (ops : List Op) (s : SessionState)
    (q : Question)
    (hshuf : ∀ l, List.Perm (shuf l) l)
    (hfin : s.is_finished = false)
    (hq : get_question engine s.skill s.current_seniority s.current_level pick = some q) :
    (runOps engine ops s).1 = engine ∧
    (get_next_question engine pick shuf s).2.1 = engine ∧
    (get_next_question engine pick shuf s).1 =
      some { q with options := shuf q.options } ∧
    q ∈ engine ∧
    List.Perm ({ q with options := shuf q.options } : Question).options q.options ∧
    (get_next_question engine pick shuf s).2.2.question_history =
      s.question_history ++ [{ q with options := shuf q.options }] ∧
    (get_next_question engine pick shuf s).2.2.answer_history = s.answer_history := by
  have hfound := get_next_question_found engine pick shuf s q hfin hq
  refine ⟨runOps_engine engine ops s, get_next_question_engine engine pick shuf s,
    ?_, get_question_mem engine _ _ _ pick q hq, hshuf q.options, ?_, ?_⟩
  · rw [hfound]
  · rw [hfound]
  · rw [hfound]

/-- Witness for C9 on the one-question repository with the identity
permutation as shuffle. -/
theorem c9_witness :
    (runOps repoM3 [] (initSession "html" "middle")).1 = repoM3 ∧
    (get_next_question repoM3 0 (fun l => l) (initSession "html" "middle")).2.1 = repoM3 ∧
    (get_next_question repoM3 0 (fun l => l) (initSession "html" "middle")).1 =
      some { mkQuestion "html" "middle" 3 with
               options := (fun l => l) (mkQuestion "html" "middle" 3).options } ∧
    mkQuestion "html" "middle" 3 ∈ repoM3 ∧
    List.Perm ({ mkQuestion "html" "middle" 3 with
                   options := (fun l => l) (mkQuestion "html" "middle" 3).options } :
        Question).options
      (mkQuestion "html" "middle" 3).options ∧
    (get_next_question repoM3 0 (fun l => l) (initSession "html" "middle")).2.2.question_history =
      (initSession "html" "middle").question_history ++
        [{ mkQuestion "html" "middle" 3 with
             options := (fun l => l) (mkQuestion "html" "middle" 3).options }] ∧
    (get_next_question repoM3 0 (fun l => l) (initSession "html" "middle")).2.2.answer_history =
      (initSession "html" "middle").answer_history :=
  c9_repository_read_only repoM3 0 (fun l => l) [] (initSession "html" "middle")
    (mkQuestion "html" "middle" 3) (fun l => List.Perm.refl l) rfl (by decide)

/-- Applying a resolved branch to states with equal cores yields equal
cores. -/
theorem applyTrans_core (s t : SessionState) (tr : Transition) (h : core s = core t) :
    core (applyTrans s tr) = core (applyTrans t tr) := by
  simp only [core, Prod.mk.injEq] at h
  obtain ⟨h1, h2, h3, h4, h5, h6, h7, h8⟩ := h
  cases tr <;>
    simp [applyTrans, core, finishTest, h1, h2, h3, h4, h5, h6, h7, h8]

/-- Applying a resolved branch never touches the recorded answers or the
starting tier. -/
theorem applyTrans_frame (s : SessionState) (tr : Transition) :
    (applyTrans s tr).answer_history = s.answer_history ∧
    (applyTrans s tr).starting_seniority = s.starting_seniority := by
  cases tr <;> exact ⟨rfl, rfl⟩

/-- The middle-tier table reads and writes only the components collected
in `core`. -/
theorem update_middle_congr (s t : SessionState) (c : Bool) (h : core s = core t) :
    core (update_middle s c) = core (update_middle t c) := by
  have h4 : s.path_state = t.path_state := congrArg (fun p => p.2.2.2.1) h
  have h8 : s.answer_history.length = t.answer_history.length :=
    congrArg (fun p => p.2.2.2.2.2.2.2) h
  simp only [update_middle]
  rw [h8, h4]
  exact applyTrans_core s t _ h

/-- The senior-tier table reads and writes only the components collected
in `core`. -/
theorem update_senior_congr (s t : SessionState) (c : Bool) (h : core s = core t) :
    core (update_senior s c) = core (update_senior t c) := by
  have h4 : s.path_state = t.path_state := congrArg (fun p => p.2.2.2.1) h
  have h8 : s.answer_history.length = t.answer_history.length :=
    congrArg (fun p => p.2.2.2.2.2.2.2) h
  simp only [update_senior]
  rw [h8, h4]
  exact applyTrans_core s t _ h

/-- The fresher-tier table reads and writes only the components collected
in `core`. -/
theorem update_fresher_congr (s t : SessionState) (c : Bool) (h : core s = core t) :
    core (update_fresher s c) = core (update_fresher t c) := by
  have h4 : s.path_state = t.path_state := congrArg (fun p => p.2.2.2.1) h
  have h8 : s.answer_history.length = t.answer_history.length :=
    congrArg (fun p => p.2.2.2.2.2.2.2) h
  simp only [update_fresher]
  rw [h8, h4]
  exact applyTrans_core s t _ h

/-- The junior-tier table reads and writes only the components collected
in `core`. -/
theorem update_junior_congr (s t : SessionState) (c : Bool) (h : core s = core t) :
    core (update_junior s c) = core (update_junior t c) := by
  have h4 : s.path_state = t.path_state := congrArg (fun p => p.2.2.2.1) h
  have h8 : s.answer_history.length = t.answer_history.length :=
    congrArg (fun p => p.2.2.2.2.2.2.2) h
  simp only [update_junior]
  rw [h8, h4]
  exact applyTrans_core s t _ h

/-- A successful dispatch never touches the recorded answers or the
starting tier. -/
theorem dispatch_frame (s : SessionState) (c : Bool) (u : SessionState)
    (h : dispatch s c = some u) :
    u.answer_history = s.answer_history ∧
    u.starting_seniority = s.starting_seniority := by
  simp only [dispatch] at h
  split_ifs at h
  · cases h; exact applyTrans_frame s _
  · cases h; exact applyTrans_frame s _
  · cases h; exact applyTrans_frame s _
  · cases h; exact applyTrans_frame s _

/-- Dispatch is determined by the `core` components: states with equal
cores dispatch to the same branch and to states with equal cores. -/
theorem dispatch_congr (s t : SessionState) (c : Bool) (h : core s = core t) :
    (dispatch s c = none ∧ dispatch t c = none) ∨
    (∃ u v, dispatch s c = some u ∧ dispatch t c = some v ∧ core u = core v) := by
  have hss : s.starting_seniority = t.starting_seniority :=
    congrArg (fun p => p.1) h
  simp only [dispatch, hss]
  split_ifs
  · exact Or.inr ⟨_, _, rfl, rfl, update_fresher_congr s t c h⟩
  · exact Or.inr ⟨_, _, rfl, rfl, update_junior_congr s t c h⟩
  · exact Or.inr ⟨_, _, rfl, rfl, update_middle_congr s t c h⟩
  · exact Or.inr ⟨_, _, rfl, rfl, update_senior_congr s t c h⟩
  · exact Or.inl ⟨rfl, rfl⟩

/-- Appending one flag to a replayed sequence performs one replay step. -/
theorem replay_concat (tier : String) (cs : List Bool) (c : Bool) :
    replay tier (cs ++ [c]) = replayStep (replay tier cs) c := by
  simp [replay, List.foldl_append]

/-- Replay step on an unfinished state whose appended record falls through
the dispatch. -/
theorem replayStep_eq_of_dispatch_none (r : SessionState) (c : Bool)
    (hfin : r.is_finished = false)
    (hd : dispatch { r with answer_history := r.answer_history ++ [dummyRecord c] } c =
      none) :
    replayStep r c = { r with answer_history := r.answer_history ++ [dummyRecord c] } := by
  rw [hfin] at hd
  simp [replayStep, hfin, hd]

/-- Replay step on an unfinished state whose appended record dispatches to
a table transition. -/
theorem replayStep_eq_of_dispatch_some (r : SessionState) (c : Bool) (v : SessionState)
    (hfin : r.is_finished = false)
    (hd : dispatch { r with answer_history := r.answer_history ++ [dummyRecord c] } c =
      some v) :
    replayStep r c = v := by
  rw [hfin] at hd
  simp [replayStep, hfin, hd]

/-- Submitting an answer preserves the reachability invariant. -/
theorem submit_preserves_inv (s : SessionState) (idx : Int) (h : ReachInv s) :
    ReachInv (submit_answer s idx).2 := by
  by_cases hf : s.is_finished = true
  · have he : (submit_answer s idx).2 = s := by simp [submit_answer, hf]
    rw [he]
    exact h
  · have hf2 : s.is_finished = false := by simpa using hf
    by_cases hq : s.question_history = []
    · have he : (submit_answer s idx).2 = s := by simp [submit_answer, hq]
      rw [he]
      exact h
    · obtain ⟨q, hlast⟩ : ∃ q, s.question_history.getLast? = some q := by
        cases hh : s.question_history.getLast? with
        | none => exact absurd (List.getLast?_eq_none_iff.mp hh) hq
        | some q => exact ⟨q, rfl⟩
      cases hopt : pyGet q.options idx with
      | none =>
        rw [submit_answer_raised s idx q hf2 hlast hopt]
        exact h
      | some opt =>
        rcases h with hcore | ⟨hfin, hlabel⟩
        · have hcomp := hcore
          simp only [core, Prod.mk.injEq] at hcomp
          obtain ⟨e1, e2, e3, e4, e5, e6, e7, e8⟩ := hcomp
          have hrfin : (replay s.starting_seniority (flags s)).is_finished = false := by
            rw [← e5]
            exact hf2
          have hflags : flags (appendAnswer s q idx opt.isAnswerKey) =
              flags s ++ [opt.isAnswerKey] := by
            simp [appendAnswer, flags]
          have hss1 : (appendAnswer s q idx opt.isAnswerKey).starting_seniority =
              s.starting_seniority := rfl
          have hcore1 : core (appendAnswer s q idx opt.isAnswerKey) =
              core { replay s.starting_seniority (flags s) with
                answer_history :=
                  (replay s.starting_seniority (flags s)).answer_history ++
                    [dummyRecord opt.isAnswerKey] } := by
            simp only [appendAnswer, core, List.length_append, List.length_cons,
              List.length_nil, Prod.mk.injEq]
            exact ⟨e1, e2, e3, e4, e5, e6, e7, by rw [e8]⟩
          rcases dispatch_congr _ _ opt.isAnswerKey hcore1 with
            ⟨hd1, hd2⟩ | ⟨u, v, hd1, hd2, huv⟩
          · rw [submit_answer_invalid s idx q opt hf2 hlast hopt hd1]
            left
            rw [hss1, hflags, replay_concat,
              replayStep_eq_of_dispatch_none _ _ hrfin hd2]
            exact hcore1
          · rw [submit_answer_advance s idx q opt u hf2 hlast hopt hd1]
            left
            have hfr := dispatch_frame _ opt.isAnswerKey u hd1
            have hflagsu : flags u = flags s ++ [opt.isAnswerKey] := by
              rw [← hflags]
              simp [flags, hfr.1]
            rw [hfr.2, hss1, hflagsu, replay_concat,
              replayStep_eq_of_dispatch_some _ _ v hrfin hd2]
            exact huv
        · exact absurd hfin (by simp [hf2])

/-- Fetching the next question preserves the reachability invariant. -/
theorem next_preserves_inv (engine : List Question) (pick : Nat)
    (shuf : List QOption → List QOption) (s : SessionState) (h : ReachInv s) :
    ReachInv (get_next_question engine pick shuf s).2.2 := by
  by_cases hf : s.is_finished = true
  · have he : (get_next_question engine pick shuf s).2.2 = s := by
      simp [get_next_question, hf]
    rw [he]
    exact h
  · have hf2 : s.is_finished = false := by simpa using hf
    cases hq : get_question engine s.skill s.current_seniority s.current_level pick with
    | none =>
      have he : (get_next_question engine pick shuf s).2.2 =
          finishTest s "NO_QUESTION_AVAILABLE" true := by
        unfold get_next_question
        rw [hf2, hq]
        rfl
      rw [he]
      exact Or.inr ⟨rfl, rfl⟩
    | some q =>
      rw [get_next_question_found engine pick shuf s q hf2 hq]
      rcases h with hcore | hno
      · exact Or.inl hcore
      · exact Or.inr hno

/-- Any sequence of public API calls preserves the reachability
invariant. -/
theorem runOps_preserves_inv (engine : List Question) (ops : List Op) (s : SessionState)
    (h : ReachInv s) : ReachInv (runOps engine ops s).2 := by
  induction ops generalizing engine s with
  | nil => exact h
  | cons op rest ih =>
    cases op with
    | next pick shuf => exact ih _ _ (next_preserves_inv engine pick shuf s h)
    | submit idx => exact ih _ _ (submit_preserves_inv s idx h)

/-- A fresh session satisfies the reachability invariant. -/
theorem reachInv_init (skill tier : String) : ReachInv (initSession skill tier) :=
  Or.inl rfl

/-- C8 amended: for every session reachable by the public API that is
finished with a final outcome other than NO_QUESTION_AVAILABLE, replaying
its recorded answer-correctness sequence through the transition table of
its starting tier from the initial state reproduces the stored outcome
label, failed flag and finished state.  (A session finished by an empty
question pool stores NO_QUESTION_AVAILABLE, which no replay of its
correctness flags reproduces; see the counterexample.) -/
theorem c8_amended_replay (engine : List Question) (ops : List Op) (skill tier : String)
    (hfin : (runOps engine ops (initSession skill tier)).2.is_finished = true)
    (hnq : (runOps engine ops (initSession skill tier)).2.final_result ≠
      some "NO_QUESTION_AVAILABLE") :
    (replay (runOps engine ops (initSession skill tier)).2.starting_seniority
        (flags (runOps engine ops (initSession skill tier)).2)).final_result =
      (runOps engine ops (initSession skill tier)).2.final_result ∧
    (replay (runOps engine ops (initSession skill tier)).2.starting_seniority
        (flags (runOps engine ops (initSession skill tier)).2)).failed =
      (runOps engine ops (initSession skill tier)).2.failed ∧
    (replay (runOps engine ops (initSession skill tier)).2.starting_seniority
        (flags (runOps engine ops (initSession skill tier)).2)).is_finished = true := by
  rcases runOps_preserves_inv engine ops (initSession skill tier)
      (reachInv_init skill tier) with hcore | ⟨h1, h2⟩
  · simp only [core, Prod.mk.injEq] at hcore
    obtain ⟨e1, e2, e3, e4, e5, e6, e7, e8⟩ := hcore
    refine ⟨e6.symm, e7.symm, ?_⟩
    rw [← e5]
    exact hfin
  · exact absurd h2 hnq

/-- Operation sequence driving a middle-tier session through four correct
answers over the full repository. -/
def opsFourCorrect : List Op :=
  [Op.next 0 (fun l => l), Op.submit 0, Op.next 0 (fun l => l), Op.submit 0,
   Op.next 0 (fun l => l), Op.submit 0, Op.next 0 (fun l => l), Op.submit 0]

/-- Witness for C8 on the four-correct middle-tier session, which finishes
at LEVELS5. -/
theorem c8_witness :
    (replay (runOps (fullRepo "html") opsFourCorrect (initSession "html" "middle")).2.starting_seniority
        (flags (runOps (fullRepo "html") opsFourCorrect (initSession "html" "middle")).2)).final_result =
      (runOps (fullRepo "html") opsFourCorrect (initSession "html" "middle")).2.final_result ∧
    (replay (runOps (fullRepo "html") opsFourCorrect (initSession "html" "middle")).2.starting_seniority
        (flags (runOps (fullRepo "html") opsFourCorrect (initSession "html" "middle")).2)).failed =
      (runOps (fullRepo "html") opsFourCorrect (initSession "html" "middle")).2.failed ∧
    (replay (runOps (fullRepo "html") opsFourCorrect (initSession "html" "middle")).2.starting_seniority
        (flags (runOps (fullRepo "html") opsFourCorrect (initSession "html" "middle")).2)).is_finished = true :=
  c8_amended_replay (fullRepo "html") opsFourCorrect "html" "middle" (by decide) (by decide)

/-- Session that answered one question correctly and then ran out of
questions: `repoM3` has no question for (html, middle, 5). -/
def sessionNoQ : SessionState := (get_next_question repoM3 0 (fun l => l) sessionA1).2.2

/-- Counterexample to C8 as stated: a finished session whose pool ran dry
stores outcome NO_QUESTION_AVAILABLE with failed = true, but replaying its
recorded correctness sequence (one correct answer) through the middle-tier
table leaves the replay unfinished with no outcome and failed = false —
the stored outcome is not reproduced. -/
theorem c8_counterexample :
    sessionNoQ.is_finished = true ∧
    sessionNoQ.final_result = some "NO_QUESTION_AVAILABLE" ∧
    sessionNoQ.failed = true ∧
    sessionNoQ.starting_seniority = "middle" ∧
    flags sessionNoQ = [true] ∧
    (replay "middle" [true]).is_finished = false ∧
    (replay "middle" [true]).final_result = none ∧
    (replay "middle" [true]).failed = false := by
  decide
